import Mathlib

/-!
Verification development for the claude-code-router core: the routing
decision engine (src/src/utils/router.ts, with the equivalent variant in
src/packages/core/src/utils/router.ts) and the streaming agent-interception
pipeline (the onSend hook of src/packages/server/src/index.ts).

JavaScript strings are modelled as Lean String, with hand-rolled structural
substring helpers so that every definition evaluates inside the kernel.
Machine behaviour that can throw (TypeError on a property access of
undefined, a rejected file read) is modelled with Except.  External
collaborators (the tiktoken encoder, JSON.stringify, the filesystem, the
custom router plugin, agent tool handlers, the nested upstream call) are
parameters of the embedding, as the spec treats them as black boxes.
-/

namespace CCR

/-! ### String helpers (JS substring semantics, structural recursion) -/

/-- If the pattern (first argument) is a character prefix of the list,
return the remainder, else none. -/
def dropPrefixL : List Char → List Char → Option (List Char)
  | [], s => some s
  | _ :: _, [] => none
  | p :: ps, c :: cs => if p = c then dropPrefixL ps cs else none

/-- Leftmost occurrence search: returns the characters before the first
occurrence of the pattern and the characters after it. -/
def splitFirstL (pat : List Char) : List Char → Option (List Char × List Char)
  | [] => none
  | c :: cs =>
    match dropPrefixL pat (c :: cs) with
    | some rest => some ([], rest)
    | none =>
      match splitFirstL pat cs with
      | some (pre, post) => some (c :: pre, post)
      | none => none

/-- JS s.includes(pat) for a nonempty pattern. -/
def strContains (s pat : String) : Bool :=
  (splitFirstL pat.data s.data).isSome

/-- JS s.startsWith(pat). -/
def strStartsWith (s pat : String) : Bool :=
  (dropPrefixL pat.data s.data).isSome

/-- Split at the first occurrence of pat: (before, after). -/
def strSplitFirst (s pat : String) : Option (String × String) :=
  match splitFirstL pat.data s.data with
  | some (pre, post) => some (String.mk pre, String.mk post)
  | none => none

/-- The segment of s before the first occurrence of pat (s itself when pat
does not occur) : the next element JS String.split would produce. -/
def firstSeg (s pat : String) : String :=
  match strSplitFirst s pat with
  | some (pre, _) => pre
  | none => s

/-- The suffix of s after the first occurrence of pat, if any. -/
def afterFirst (s pat : String) : Option String :=
  (strSplitFirst s pat).map (fun pr => pr.2)

/-- JS String.prototype.toLowerCase restricted to the characters we meet. -/
def lowerStr (s : String) : String :=
  String.mk (s.data.map Char.toLower)

/-- JS truthiness of a possibly-undefined string. -/
def strTruthy : Option String → Bool
  | some s => !s.data.isEmpty
  | none => false

/-- JS x || d for a possibly-undefined number (0 is falsy). -/
def jsOrNat (o : Option Nat) (d : Nat) : Nat :=
  match o with
  | some n => if n == 0 then d else n
  | none => d

/-- JS comparison a > b where a may be undefined (undefined compares false). -/
def jsGtInt (o : Option Int) (k : Int) : Bool :=
  match o with
  | some n => n > k
  | none => false

/-! ### JSON values (only as opaque payloads of the embedding) -/

/-- Structured JSON payloads carried by requests and tool results.  Only
their stringified token length matters to the router, via the abstract
encoder parameter. -/
inductive Json where
  | null : Json
  | bool (b : Bool) : Json
  | num (n : Int) : Json
  | str (s : String) : Json
  | arr (elems : List Json) : Json
  | obj (fields : List (String × Json)) : Json

/-- JS truthiness of a JSON value. -/
def jsonTruthy : Json → Bool
  | .null => false
  | .bool b => b
  | .num n => n != 0
  | .str s => !s.data.isEmpty
  | .arr _ => true
  | .obj _ => true

/-- Property lookup on a JSON object (undefined when absent or not an object). -/
def jsonLookup (v : Json) (key : String) : Option Json :=
  match v with
  | .obj fields =>
    match fields.find? (fun kv => kv.1 == key) with
    | some kv => some kv.2
    | none => none
  | _ => none

/-! ### Request data model (fields the router and the pipeline read) -/

/-- Token usage of one response, as cached per session. -/
structure Usage where
  input_tokens : Nat
  output_tokens : Nat
deriving DecidableEq

/-- A content block of a structured message, as far as token counting reads it. -/
inductive CBlock where
  | text (t : String) : CBlock
  | tool_use (input : Json) : CBlock
  | tool_result (content : Json) : CBlock
  | other : CBlock

/-- Message content: a plain string, an array of blocks, or something else. -/
inductive MsgContent where
  | str (s : String) : MsgContent
  | blocks (xs : List CBlock) : MsgContent
  | other : MsgContent

structure MessageE where
  role : String
  content : MsgContent

/-- The text field of a system prompt item: a string or an array of
possibly-null strings. -/
inductive SysText where
  | str (s : String) : SysText
  | arr (xs : List (Option String)) : SysText

structure SysItem where
  type : Option String
  text : Option SysText

/-- The system field of a request body. -/
inductive SystemField where
  | str (s : String) : SystemField
  | items (xs : List SysItem) : SystemField
  | absent : SystemField

structure ToolSpec where
  name : String
  description : Option String
  type : Option String
  input_schema : Option Json

structure ReqBody where
  model : Option String
  messages : Option (List MessageE)
  system : SystemField
  tools : Option (List ToolSpec)
  thinking : Bool
  metadata_user_id : Option String

structure ReqE where
  body : ReqBody
  sessionId : Option String
  tokenCount : Option Nat
  agents : Option (List String)

/-! ### Configuration -/

/-- The Router section of the configuration (each key a provider,model
string or absent). -/
structure RouterCfg where
  dft : Option String
  background : Option String
  think : Option String
  longContext : Option String
  longContextThreshold : Option Nat
  webSearch : Option String

structure Provider where
  name : String
  models : Option (List String)

structure Config where
  Providers : Option (List Provider)
  Router : Option RouterCfg
  REWRITE_SYSTEM_PROMPT : Option String
  CUSTOM_ROUTER_PATH : Option String

/-- Runtime errors of the JS code (a TypeError on an undefined property or
method, or a rejected file read) that the embedding makes explicit. -/
inductive JsErr where
  | typeError : JsErr
  | fileError : JsErr
deriving DecidableEq

/-! ### calculateTokenCount (src/src/utils/router.ts lines 16-68) -/

/-- Token contribution of one content block inside a structured message. -/
def blockTokens (encode : String → Nat) (stringify : Json → String) : CBlock → Nat
  | .text t => encode t
  | .tool_use input => encode (stringify input)
  | .tool_result content =>
    match content with
    | .str s => encode s
    | j => encode (stringify j)
  | .other => 0

/-- Token contribution of one message. -/
def msgTokens (encode : String → Nat) (stringify : Json → String) (m : MessageE) : Nat :=
  match m.content with
  | .str s => encode s
  | .blocks xs => xs.foldl (fun acc b => acc + blockTokens encode stringify b) 0
  | .other => 0

/-- Token contribution of one system prompt item. -/
def sysItemTokens (encode : String → Nat) (it : SysItem) : Nat :=
  if it.type == some "text" then
    match it.text with
    | some (.str s) => encode s
    | some (.arr xs) => xs.foldl (fun acc t => acc + encode (t.getD "")) 0
    | none => 0
  else 0

/-- Token contribution of one tool specification.  Note the source only
counts name and description when the description is truthy, and only counts
the schema when it is truthy. -/
def toolTokens (encode : String → Nat) (stringify : Json → String) (tool : ToolSpec) : Nat :=
  (if strTruthy tool.description then
    encode (tool.name ++ tool.description.getD "")
  else 0)
  + (match tool.input_schema with
     | some schema => if jsonTruthy schema then encode (stringify schema) else 0
     | none => 0)

/-- Translation of calculateTokenCount: the running accumulator of the
source forEach loops is a left fold. -/
def calculateTokenCount (encode : String → Nat) (stringify : Json → String)
    (messages : Option (List MessageE)) (system : SystemField)
    (tools : Option (List ToolSpec)) : Nat :=
  let t1 :=
    match messages with
    | some ms => ms.foldl (fun acc m => acc + msgTokens encode stringify m) 0
    | none => 0
  let t2 :=
    match system with
    | .str s => encode s
    | .items xs => xs.foldl (fun acc it => acc + sysItemTokens encode it) 0
    | .absent => 0
  let t3 :=
    match tools with
    | some ts => ts.foldl (fun acc tool => acc + toolTokens encode stringify tool) 0
    | none => 0
  t1 + t2 + t3

/-! ### getUseModel (src/src/utils/router.ts lines 106-180)

The chain of early returns of the source is split into one definition per
rule; each rule either returns a decision, throws, or hands over to the
next rule.  The result pairs the chosen model (undefined when
Router.default is absent) with the possibly mutated request. -/

/-- Replace the text of the second system prompt item (index 1), as the
subagent rule and the system prompt rewrite do in place. -/
def setSys1Text (req : ReqE) (newText : String) : ReqE :=
  match req.body.system with
  | .items xs =>
    let xs2 := xs.enum.map (fun p =>
      if p.1 == 1 then { p.2 with text := some (.str newText) } else p.2)
    { req with body := { req.body with system := .items xs2 } }
  | _ => req

/-- Extract the model between the subagent open tag at position 0 and the
first closing tag (the lazy regex capture), together with the text left
after the matched span is replaced by the empty string. -/
def subagentExtract (t : String) : Option (String × String) :=
  match dropPrefixL "<CCR-SUBAGENT-MODEL>".data t.data with
  | some rest =>
    match splitFirstL "</CCR-SUBAGENT-MODEL>".data rest with
    | some (m, post) => some (String.mk m, String.mk post)
    | none => none
  | none => none

/-- Rules 7 to 9: web search priority, thinking mode, terminal default. -/
def umTail (req : ReqE) (R : RouterCfg) : Except JsErr (Option String × ReqE) :=
  let ws :=
    match req.body.tools with
    | some ts => ts.any (fun tool =>
        match tool.type with
        | some ty => strStartsWith ty "web_search"
        | none => false)
    | none => false
  if ws && strTruthy R.webSearch then .ok (R.webSearch, req)
  else if req.body.thinking && strTruthy R.think then .ok (R.think, req)
  else .ok (R.dft, req)

/-- Rule 6: the background model shortcut.  It dereferences the global
config.Router (not the effective Router), and only after both substring
checks succeed; with no global Router section that dereference throws. -/
def umBackground (req : ReqE) (R : RouterCfg) (config : Config) (m : String) :
    Except JsErr (Option String × ReqE) :=
  if strContains m "claude" && strContains m "haiku" then
    match config.Router with
    | none => .error .typeError
    | some g =>
      if strTruthy g.background then .ok (g.background, req)
      else umTail req R
  else umTail req R

/-- What the subagent rule does on a given system field: fire with a model
and the stripped text, throw (startsWith called on an array-valued text),
or pass to the next rule. -/
inductive SubagentOutcome where
  | fires (mdl newText : String) : SubagentOutcome
  | throws : SubagentOutcome
  | passes : SubagentOutcome
deriving DecidableEq

def subagentCheck : SystemField → SubagentOutcome
  | .items xs =>
    if xs.length > 1 then
      match (xs.get? 1).bind SysItem.text with
      | some (.str t) =>
        if strStartsWith t "<CCR-SUBAGENT-MODEL>" then
          match subagentExtract t with
          | some (mdl, newText) => .fires mdl newText
          | none => .passes
        else .passes
      | some (.arr _) => .throws
      | none => .passes
    else .passes
  | _ => .passes

/-- Rule 5: the subagent tag override. -/
def umSubagent (req : ReqE) (R : RouterCfg) (config : Config) (m : String) :
    Except JsErr (Option String × ReqE) :=
  match subagentCheck req.body.system with
  | .fires mdl newText => .ok (some mdl, setSys1Text req newText)
  | .throws => .error .typeError
  | .passes => umBackground req R config m

/-- The firing condition of the long context rule.  The threshold falls
back to 60000 under JS || (so a configured 0 is replaced as well). -/
def longContextFires (tokenCount : Nat) (lastUsage : Option Usage) (R : RouterCfg) : Bool :=
  let longContextThreshold := jsOrNat R.longContextThreshold 60000
  let lastUsageThreshold :=
    match lastUsage with
    | some u => decide (u.input_tokens > longContextThreshold) && decide (tokenCount > 20000)
    | none => false
  let tokenCountThreshold := decide (tokenCount > longContextThreshold)
  (lastUsageThreshold || tokenCountThreshold) && strTruthy R.longContext

/-- Rule 4: long context escalation. -/
def umLongContext (req : ReqE) (tokenCount : Nat) (config : Config)
    (lastUsage : Option Usage) (R : RouterCfg) (m : String) :
    Except JsErr (Option String × ReqE) :=
  if longContextFires tokenCount lastUsage R then
    .ok (R.longContext, req)
  else umSubagent req R config m

/-- Rule 2: explicit provider,model.  Only the configured side of the
comparison is lowercased; with no Providers array the find call throws. -/
def umComma (req : ReqE) (config : Config) (m : String) :
    Except JsErr (Option String × ReqE) :=
  match config.Providers with
  | none => .error .typeError
  | some providers =>
    match strSplitFirst m "," with
    | some (provider, post) =>
      let modelSeg := firstSeg post ","
      let finalProvider := providers.find? (fun p => lowerStr p.name == provider)
      let finalModel := finalProvider.bind (fun p =>
        p.models.bind (fun ms => ms.find? (fun mm => lowerStr mm == modelSeg)))
      match finalProvider, finalModel with
      | some fp, some fm => .ok (some (fp.name ++ "," ++ fm), req)
      | _, _ => .ok (some m, req)
    | none => .ok (some m, req)

/-- getUseModel.  The project specific Router (already resolved, the file
system part never throws) replaces the global one for every rule except
rule 6.  Reading model.includes on an absent model throws; dereferencing
longContextThreshold with no effective Router throws. -/
def getUseModel (projRouter : Option RouterCfg) (req : ReqE) (tokenCount : Nat)
    (config : Config) (lastUsage : Option Usage) :
    Except JsErr (Option String × ReqE) :=
  let Router := projRouter <|> config.Router
  match req.body.model with
  | none => .error .typeError
  | some m =>
    if strContains m "," then umComma req config m
    else
      match Router with
      | none => .error .typeError
      | some R => umLongContext req tokenCount config lastUsage R m

/-! ### router entry point (src/src/utils/router.ts lines 182-230) -/

/-- External collaborators of the router, injected as functions: the file
system read (none models a rejected promise), the loaded custom router
(none models a missing or failed require, an error result models a throw),
the resolved project router lookup (its internals catch all errors), and
the session usage cache. -/
structure RouterDeps where
  fileRead : String → Option String
  custom : Option (ReqE → Config → Except Unit (Option String))
  projRouter : Option String → Option RouterCfg
  usageCache : Option String → Option Usage

def setModel (req : ReqE) (m : Option String) : ReqE :=
  { req with body := { req.body with model := m } }

/-- Session id derivation: split metadata.user_id on the marker and take
element 1 of the parts array when there are at least two parts. -/
def sessionStep (req : ReqE) : ReqE :=
  match req.body.metadata_user_id with
  | some uid =>
    match strSplitFirst uid "_session_" with
    | some (_, post) => { req with sessionId := some (firstSeg post "_session_") }
    | none => req
  | none => req

/-- Last segment of a JS split: text.split(pat).pop(). -/
def lastSegAux (pat : List Char) : Nat → List Char → List Char
  | 0, s => s
  | fuel + 1, s =>
    match splitFirstL pat s with
    | some (_, post) => lastSegAux pat fuel post
    | none => s

def lastSeg (s pat : String) : String :=
  String.mk (lastSegAux pat.data s.data.length s.data)

/-- The system prompt rewrite (source lines 193-200).  This step runs
before the try block of the entry point: a failing file read rejects the
whole router call, and an array-valued text makes the split call throw. -/
def rewriteStep (deps : RouterDeps) (req : ReqE) (config : Config) :
    Except JsErr ReqE :=
  let sysLen :=
    match req.body.system with
    | .str s => s.data.length
    | .items xs => xs.length
    | .absent => 0
  let text1 :=
    match req.body.system with
    | .items xs => (xs.get? 1).bind SysItem.text
    | _ => none
  let textHasEnv :=
    match text1 with
    | some (.str t) => strContains t "<env>"
    | some (.arr xs) => xs.contains (some "<env>")
    | none => false
  if strTruthy config.REWRITE_SYSTEM_PROMPT && sysLen > 1 && textHasEnv then
    match deps.fileRead (config.REWRITE_SYSTEM_PROMPT.getD "") with
    | none => .error .fileError
    | some prompt =>
      match text1 with
      | some (.str t) =>
        .ok (setSys1Text req (prompt ++ "<env>" ++ lastSeg t "<env>"))
      | _ => .error .typeError
  else .ok req

/-- The custom router step: when a path is configured, set req.tokenCount
and call the loaded function; its own failures (a throwing require or
call) are caught and treated as no decision. -/
def customStep (deps : RouterDeps) (config : Config) (req : ReqE) (tokenCount : Nat) :
    Option String × ReqE :=
  if strTruthy config.CUSTOM_ROUTER_PATH then
    match deps.custom with
    | some f =>
      let reqT := { req with tokenCount := some tokenCount }
      match f reqT config with
      | .ok m => (m, reqT)
      | .error _ => (none, reqT)
    | none => (none, req)
  else (none, req)

/-- The token count of the try block (the system field defaults to an
empty array under the destructuring of the entry point). -/
def decideTokenCount (encode : String → Nat) (stringify : Json → String) (req : ReqE) : Nat :=
  calculateTokenCount encode stringify req.body.messages
    (match req.body.system with
     | .absent => .items []
     | s => s)
    req.body.tools

/-- After the custom router step: a truthy custom model wins, otherwise
getUseModel decides; decision errors carry the request as mutated so
far. -/
def decideCore (deps : RouterDeps) (config : Config) (lastUsage : Option Usage)
    (tokenCount : Nat) (step : Option String × ReqE) :
    Except (JsErr × ReqE) (Option String × ReqE) :=
  if strTruthy step.1 then .ok (step.1, step.2)
  else
    (getUseModel (deps.projRouter step.2.sessionId) step.2 tokenCount config lastUsage).mapError
      (fun e => (e, step.2))

/-- The try block: token count, optional custom router (its own failures
are caught and treated as no decision), then getUseModel. -/
def routerDecide (encode : String → Nat) (stringify : Json → String)
    (deps : RouterDeps) (req : ReqE) (config : Config)
    (lastUsage : Option Usage) : Except (JsErr × ReqE) (Option String × ReqE) :=
  decideCore deps config lastUsage (decideTokenCount encode stringify req)
    (customStep deps config req (decideTokenCount encode stringify req))

/-- The routing entry point.  The session id parse, the usage cache read
and the system prompt rewrite run before the try block; the catch sets
req.body.model to config.Router.default (and itself throws when there is
no global Router section). -/
def router (encode : String → Nat) (stringify : Json → String)
    (deps : RouterDeps) (req0 : ReqE) (config : Config) : Except JsErr ReqE :=
  match rewriteStep deps (sessionStep req0) config with
  | .error e => .error e
  | .ok req2 =>
    match routerDecide encode stringify deps req2 config
        (deps.usageCache (sessionStep req0).sessionId) with
    | .ok (m, req3) => .ok (setModel req3 m)
    | .error (_, reqF) =>
      match config.Router with
      | none => .error .typeError
      | some r => .ok (setModel reqF r.dft)

/-! ### SSE events as observed by the interception pipeline

Only the fields the onSend rewrite callback inspects are modelled; the
delta and content_block substructures carry the per-event payload, and the
usage field models the object the background tee extracts from the
terminal message_delta. -/

structure CBInfo where
  name : Option String
  id : Option String
deriving DecidableEq

structure DeltaInfo where
  type : Option String
  partial_json : Option String
deriving DecidableEq

structure EvtData where
  type : Option String
  index : Option Int
  content_block : Option CBInfo
  delta : Option DeltaInfo
  usage : Option Usage
deriving DecidableEq

structure SSEEvt where
  event : String
  data : EvtData
deriving DecidableEq

/-! ### Agent interception pipeline
(rewriteStream callback of the onSend hook, src/packages/server/src/index.ts
lines 251-364) -/

/-- The assistant tool_use block recorded when a tool call completes. -/
structure AsstBlock where
  id : Option String
  name : String
  input : Json

/-- The user-role tool_result block recorded after the handler ran; the
content is undefined when the handler or the tool is missing. -/
structure ToolResBlock where
  tool_use_id : Option String
  content : Option Json

/-- An entry of req.body.messages as the pipeline sees it: an original
request message, or one of the two blocks appended at splice time. -/
inductive PMsg where
  | orig (m : MessageE) : PMsg
  | assistant (blocks : List AsstBlock) : PMsg
  | userTool (blocks : List ToolResBlock) : PMsg

/-- External collaborators of the pipeline: the active agent list of the
request, tool ownership lookup, the tolerant JSON5 parser (none models a
throw), the tool handler (error models a throw), and the nested upstream
call (none models a non-OK response; some gives the parsed event stream of
the nested response). -/
structure PipeEnv where
  agents : List String
  agentHasTool : String → String → Bool
  json5Parse : String → Option Json
  handler : String → String → Json → Except Unit Json
  nested : List PMsg → Option (List SSEEvt)

/-- The per-stream interception state (closure variables of the callback).
currentToolIndex is an Option since an event without an index field stores
undefined; the initial JS value is -1. -/
structure PipeState where
  currentAgent : Option String
  currentToolIndex : Option Int
  currentToolName : String
  currentToolArgs : String
  currentToolId : Option String
  toolMessages : List ToolResBlock
  assistantMessages : List AsstBlock
  messages : List PMsg

def initPipeState (origMsgs : List PMsg) : PipeState :=
  ⟨none, some (-1), "", "", some "", [], [], origMsgs⟩

def cbNameOf (d : SSEEvt) : Option String :=
  d.data.content_block.bind CBInfo.name

/-- Splice on message_delta: append the collected blocks to the
conversation, call the nested endpoint, and emit every nested event except
the message_start and message_stop framing; the triggering message_delta
is suppressed in every branch. -/
def pipeSplice (env : PipeEnv) (st : PipeState) (d : SSEEvt) :
    PipeState × List SSEEvt :=
  if d.event == "message_delta" && !st.toolMessages.isEmpty then
    let msgs2 := st.messages ++ [PMsg.assistant st.assistantMessages, PMsg.userTool st.toolMessages]
    let st2 := { st with messages := msgs2 }
    match env.nested msgs2 with
    | none => (st2, [])
    | some evs =>
      (st2, evs.filter (fun e => !(e.event == "message_start" || e.event == "message_stop")))
  else (st, [d])

/-- Tool completion: parse the accumulated arguments, record the tool_use
block, run the handler, record the tool_result block and reset.  A parse
throw is caught before anything is recorded and before any reset; a
handler throw is caught after the tool_use block was already recorded,
also before any reset.  The event is suppressed in every branch. -/
def pipeStop (env : PipeEnv) (st : PipeState) : PipeState × List SSEEvt :=
  match env.json5Parse st.currentToolArgs with
  | none => (st, [])
  | some args =>
    let st1 := { st with assistantMessages :=
      st.assistantMessages ++ [(⟨st.currentToolId, st.currentToolName, args⟩ : AsstBlock)] }
    let tr :=
      match st1.currentAgent with
      | none => Except.ok (none : Option Json)
      | some ag =>
        if env.agentHasTool ag st1.currentToolName then
          (env.handler ag st1.currentToolName args).map some
        else Except.ok none
    match tr with
    | .error _ => (st1, [])
    | .ok res =>
      ({ st1 with toolMessages := st1.toolMessages ++ [(⟨st1.currentToolId, res⟩ : ToolResBlock)],
                  currentAgent := none, currentToolIndex := some (-1),
                  currentToolName := "", currentToolArgs := "", currentToolId := some "" }, [])

/-- The checks after the tool-call-start detection, in source order. -/
def pipeAfterStart (env : PipeEnv) (st : PipeState) (d : SSEEvt) :
    PipeState × List SSEEvt :=
  if jsGtInt st.currentToolIndex (-1) && d.data.index == st.currentToolIndex
      && (d.data.delta.bind DeltaInfo.type) == some "input_json_delta" then
    ({ st with currentToolArgs :=
        st.currentToolArgs ++ ((d.data.delta.bind DeltaInfo.partial_json).getD "undefined") }, [])
  else if jsGtInt st.currentToolIndex (-1) && d.data.index == st.currentToolIndex
      && d.data.type == some "content_block_stop" then
    pipeStop env st
  else
    pipeSplice env st d

/-- One call of the rewriteStream callback: the returned event list is what
this event contributes downstream (empty = suppressed). -/
def pipeStep (env : PipeEnv) (st : PipeState) (d : SSEEvt) :
    PipeState × List SSEEvt :=
  if d.event == "content_block_start" && strTruthy (cbNameOf d) then
    match env.agents.find? (fun nm => env.agentHasTool nm ((cbNameOf d).getD "")) with
    | some ag =>
      ({ st with currentAgent := some ag,
                 currentToolIndex := d.data.index,
                 currentToolName := (cbNameOf d).getD "",
                 currentToolId := d.data.content_block.bind CBInfo.id }, [])
    | none => pipeAfterStart env st d
  else pipeAfterStart env st d

/-- The whole rewritten stream: the callback for event N completes before
event N+1 is processed, so the pipeline is a left-to-right fold. -/
def runPipe (env : PipeEnv) : PipeState → List SSEEvt → PipeState × List SSEEvt
  | st, [] => (st, [])
  | st, e :: rest =>
    let p := pipeStep env st e
    let q := runPipe env p.1 rest
    (q.1, p.2 ++ q.2)

/-! ### onSend hook dispatch (src/packages/server/src/index.ts lines 237-411) -/

/-- A response payload: an SSE stream (modelled at parsed-event level), a
JSON object, or a plain string. -/
inductive PayloadE where
  | stream (evs : List SSEEvt) : PayloadE
  | json (v : Json) : PayloadE
  | raw (s : String) : PayloadE

/-- The shape of the done callback invocation that ends the hook. -/
inductive SendResult where
  | doneErr (e : Json) : SendResult
  | doneOk (p : PayloadE) : SendResult
  | donePayloadAsError (p : PayloadE) : SendResult

/-- What one onSend invocation did: the done call, whether the agent
interception pipeline was applied, and the session usage cache writes. -/
structure HookOutcome where
  sent : SendResult
  intercepted : Bool
  cacheWrites : List (String × Option Usage)

/-- Usage decode of the tee reader (JSON.parse of the message_delta data,
then the usage property). -/
def usageOfJson (v : Json) : Option Usage :=
  match jsonLookup v "input_tokens", jsonLookup v "output_tokens" with
  | some (.num i), some (.num o) => some ⟨i.toNat, o.toNat⟩
  | _, _ => none

/-- The background tee over the cloned stream: for every message_delta
event, write its usage object (possibly undefined) under the session id. -/
def usageWrites (sid : String) (evs : List SSEEvt) : List (String × Option Usage) :=
  evs.filterMap (fun e =>
    if e.event == "message_delta" then some (sid, e.data.usage) else none)

/-- The onSend hook.  The whole session branch is guarded by a truthy
req.sessionId and the /v1/messages url; inside it, a stream payload with
req.agents set is rewritten through the pipeline (and returns before the
tee), a stream without agents is teed for usage extraction and passed
through, a JSON object payload records usage then ends in one of the two
done calls of lines 401-404, and a non-object payload records usage and
falls through to the tail checks. -/
def onSendHook (env : PipeEnv) (req : ReqE) (url : String)
    (origMsgs : List PMsg) (payload : PayloadE) : HookOutcome :=
  if strTruthy req.sessionId && strStartsWith url "/v1/messages"
      && !strStartsWith url "/v1/messages/count_tokens" then
    match payload with
    | .stream evs =>
      (match req.agents with
       | some _ =>
         { sent := .doneOk (.stream (runPipe env (initPipeState origMsgs) evs).2),
           intercepted := true, cacheWrites := [] }
       | none =>
         { sent := .doneOk (.stream evs), intercepted := false,
           cacheWrites := usageWrites (req.sessionId.getD "") evs })
    | .json v =>
      let w := [(req.sessionId.getD "", (jsonLookup v "usage").bind usageOfJson)]
      (match jsonLookup v "error" with
       | some e =>
         if jsonTruthy e then
           { sent := .doneErr e, intercepted := false, cacheWrites := w }
         else
           { sent := .donePayloadAsError (.json v), intercepted := false, cacheWrites := w }
       | none =>
         { sent := .donePayloadAsError (.json v), intercepted := false, cacheWrites := w })
    | .raw s =>
      { sent := .doneOk (.raw s), intercepted := false,
        cacheWrites := [(req.sessionId.getD "", none)] }
  else
    match payload with
    | .json v =>
      (match jsonLookup v "error" with
       | some e =>
         if jsonTruthy e then
           { sent := .doneErr e, intercepted := false, cacheWrites := [] }
         else
           { sent := .doneOk (.json v), intercepted := false, cacheWrites := [] }
       | none => { sent := .doneOk (.json v), intercepted := false, cacheWrites := [] })
    | p => { sent := .doneOk p, intercepted := false, cacheWrites := [] }

/-! ### SSE parser and serializer -/

/-- Modelled from the spec: the SSEParserTransform and SSESerializerTransform
sources are not part of the provided repository files, so the codec of
section 4.2 is built from the specification text.  The wire is modelled as
the list of its lines (the byte-to-line layer is external); a record is an
event field plus a data payload kept as raw text, since the JSON layer must
never throw and only wraps the same text. -/
structure SSERecord where
  event : String
  data : String
deriving DecidableEq

/-- Modelled from the spec: the serializer emits an event line, a data line
and the blank record terminator for every record (JSON-encoded data has no
raw newline, so one data line suffices). -/
def serializeSSE (evs : List SSERecord) : List String :=
  evs.flatMap (fun e => ["event: " ++ e.event, "data: " ++ e.data, ""])

/-- Join accumulated data lines with newlines (the multi-line data rule). -/
def joinNL : List String → String
  | [] => ""
  | [d] => d
  | d :: rest => d ++ "\n" ++ joinNL rest

/-- Modelled from the spec: the parser accumulates an event field and data
lines (joined with a newline) and dispatches a record at every blank line
that terminates a nonempty record; an incomplete trailing record is
dropped with the live connection. -/
def parseSSEAux : List String → Option String → List String → List SSERecord
  | [], _, _ => []
  | line :: rest, ev, ds =>
    if line.data.isEmpty then
      if ev.isNone && ds.isEmpty then parseSSEAux rest none []
      else ⟨ev.getD "", joinNL ds.reverse⟩ :: parseSSEAux rest none []
    else
      match dropPrefixL "event: ".data line.data with
      | some e => parseSSEAux rest (some (String.mk e)) ds
      | none =>
        match dropPrefixL "data: ".data line.data with
        | some dl => parseSSEAux rest ev (String.mk dl :: ds)
        | none => parseSSEAux rest ev ds

def parseSSE (lines : List String) : List SSERecord :=
  parseSSEAux lines none []

/-! ### Claim-side definitions (written from the claim wording, for the
refinement comparisons) -/

/-- The long context threshold exactly as claim C6 words it, with nullish
coalescing semantics (only an absent threshold falls back to 60000). -/
def specThresholdC6 (R : RouterCfg) : Nat := R.longContextThreshold.getD 60000

/-- Claim C7 wording for one message (same cases as the source). -/
def specMsgTokensC7 (encode : String → Nat) (stringify : Json → String) (m : MessageE) : Nat :=
  match m.content with
  | .str s => encode s
  | .blocks xs => (xs.map (blockTokens encode stringify)).sum
  | .other => 0

/-- Claim C7 wording for the system prompt (same cases as the source). -/
def specSysTokensC7 (encode : String → Nat) : SystemField → Nat
  | .str s => encode s
  | .items xs => (xs.map (sysItemTokens encode)).sum
  | .absent => 0

/-- Claim C7 wording for one tool: its name concatenated with its
description, plus its stringified schema, with no truthiness condition. -/
def specToolTokensC7 (encode : String → Nat) (stringify : Json → String) (tool : ToolSpec) : Nat :=
  encode (tool.name ++ tool.description.getD "") +
  (match tool.input_schema with
   | some schema => encode (stringify schema)
   | none => 0)

/-- The token estimate as claim C7 words it. -/
def specTokenCountC7 (encode : String → Nat) (stringify : Json → String)
    (messages : List MessageE) (system : SystemField) (tools : List ToolSpec) : Nat :=
  (messages.map (specMsgTokensC7 encode stringify)).sum
  + specSysTokensC7 encode system
  + (tools.map (specToolTokensC7 encode stringify)).sum

/-! ### Concrete sample instances used by witnesses and counterexamples -/

/-- A stand-in token encoder (longer text encodes to at least as many
tokens; the routing logic only reads encoded lengths). -/
def clen : String → Nat := fun s => s.data.length

/-- A stand-in JSON stringifier. -/
def cstr : Json → String := fun _ => "obj"

def emptyBody : ReqBody := ⟨some "m", none, .absent, none, false, none⟩

def reqM : ReqE := ⟨emptyBody, none, none, none⟩

def c5cfg : Config := ⟨some [⟨"ProviderX", some ["ModelY"]⟩], none, none, none⟩

def c5req : ReqE := ⟨{ emptyBody with model := some "PROVIDERX,MODELY" }, none, none, none⟩

def c5wreq : ReqE := ⟨{ emptyBody with model := some "providerx,modely" }, none, none, none⟩

def c6R : RouterCfg := ⟨some "df", none, none, some "lc", some 0, none⟩

def c6cfg : Config := ⟨none, some c6R, none, none⟩

def c6wR : RouterCfg := ⟨some "df", none, none, some "lc", some 1000, none⟩

def c6wcfg : Config := ⟨none, some c6wR, none, none⟩

def c4g : RouterCfg := ⟨some "ds,chat", some "gq,llama", none, none, none, none⟩

def c4proj : RouterCfg := ⟨some "proj,default", some "proj,background", none, none, none, none⟩

def c4cfg : Config := ⟨none, some c4g, none, none⟩

def c4req : ReqE := ⟨{ emptyBody with model := some "claude-3-haiku-20240307" }, none, none, none⟩

def c7tool : ToolSpec := ⟨"translate", none, none, none⟩

def c8req : ReqE := ⟨{ emptyBody with metadata_user_id := some "u_session_abc_session_def" }, none, none, none⟩

def c8wreq : ReqE := ⟨{ emptyBody with metadata_user_id := some "u_session_s1" }, none, none, none⟩

def c3Router : RouterCfg := ⟨some "ds,chat", none, none, none, none, none⟩

def c3sys : List SysItem :=
  [⟨some "text", some (.str "sys0")⟩, ⟨some "text", some (.str "x<env>y")⟩]

def c3req : ReqE := ⟨{ emptyBody with system := .items c3sys }, none, none, none⟩

def c3cfg : Config := ⟨none, some c3Router, some "prompt.txt", none⟩

def c3deps : RouterDeps := ⟨fun _ => none, none, fun _ => none, fun _ => none⟩

def c3wdeps : RouterDeps := ⟨fun _ => some "p", none, fun _ => none, fun _ => none⟩

def c3wcfg : Config := ⟨none, some c3Router, none, none⟩

def c3wreq : ReqE := ⟨{ emptyBody with model := some "a,b" }, none, none, none⟩

/-- An event record with every optional field absent. -/
def ed0 : EvtData := ⟨none, none, none, none, none⟩

/-- The outer tool-call scaffolding events of the interception scenario. -/
def mkStartEvt (idx : Int) (tname : String) (cbid : Option String) : SSEEvt :=
  ⟨"content_block_start", ⟨some "content_block_start", some idx, some ⟨some tname, cbid⟩, none, none⟩⟩

def mkDeltaEvt (idx : Int) (p : String) : SSEEvt :=
  ⟨"content_block_delta", ⟨some "content_block_delta", some idx, none,
    some ⟨some "input_json_delta", some p⟩, none⟩⟩

def mkStopEvt (idx : Int) : SSEEvt :=
  ⟨"content_block_stop", ⟨some "content_block_stop", some idx, none, none, none⟩⟩

def mkMsgDeltaEvt (u : Option Usage) : SSEEvt :=
  ⟨"message_delta", ⟨some "message_delta", none, none, none, u⟩⟩

/-- Sample nested-call response events. -/
def nStart : SSEEvt := ⟨"message_start", ed0⟩

def nCBS : SSEEvt := ⟨"content_block_start", { ed0 with index := some 0 }⟩

def nCBD : SSEEvt :=
  ⟨"content_block_delta", { ed0 with index := some 0, delta := some ⟨some "text_delta", some "hello"⟩ }⟩

def nCBE : SSEEvt := ⟨"content_block_stop", { ed0 with index := some 0 }⟩

def nMD : SSEEvt := ⟨"message_delta", { ed0 with usage := some ⟨500, 20⟩ }⟩

def nStop : SSEEvt := ⟨"message_stop", ed0⟩

def c1env : PipeEnv :=
  ⟨["agentA"], fun a t => a == "agentA" && t == "agentTool",
   fun s => if s == "arg" then some (.str "argv") else none,
   fun _ _ _ => .ok (.str "result"),
   fun _ => some [nStart, nCBS, nCBD, nCBE, nMD, nStop]⟩

def c2env : PipeEnv :=
  ⟨["agentA"], fun a t => a == "agentA" && t == "agentTool",
   fun _ => none, fun _ _ _ => .ok .null, fun _ => none⟩

def c2wst : PipeState :=
  let st := initPipeState []
  { st with currentAgent := some "agentA", currentToolIndex := some 0,
            currentToolName := "agentTool", currentToolArgs := "x" }

def c10req : ReqE := ⟨{ emptyBody with metadata_user_id := some "alice" }, none, none, some ["agentA"]⟩

/-! ## Helper lemmas -/

theorem foldl_add_sum {α : Type} (f : α → Nat) (l : List α) (n : Nat) :
    l.foldl (fun acc x => acc + f x) n = n + (l.map f).sum := by
  induction l generalizing n with
  | nil => simp
  | cons x xs ih => simp [List.foldl, ih]; omega

theorem splitFirstL_single_none (c : Char) (b : List Char) (h : c ∉ b) :
    splitFirstL [c] b = none := by
  induction b with
  | nil => rfl
  | cons x xs ih =>
    have hx : ¬ (c = x) := fun hc => h (hc ▸ List.mem_cons_self x xs)
    have hxs : c ∉ xs := fun hm => h (List.mem_cons_of_mem x hm)
    simp [splitFirstL, dropPrefixL, if_neg hx, ih hxs]

theorem splitFirstL_single_append (c : Char) (a b : List Char) (h : c ∉ a) :
    splitFirstL [c] (a ++ c :: b) = some (a, b) := by
  induction a with
  | nil => simp [splitFirstL, dropPrefixL]
  | cons x xs ih =>
    have hx : ¬ (c = x) := fun hc => h (hc ▸ List.mem_cons_self x xs)
    have hxs : c ∉ xs := fun hm => h (List.mem_cons_of_mem x hm)
    simp [splitFirstL, dropPrefixL, if_neg hx, ih hxs]

/-! ## Claim C5 -/

/-- C5, counterexample: the claim says the provider and model lookups are
case insensitive, so a request model PROVIDERX,MODELY with configured
provider ProviderX and model ModelY should resolve to the canonical
ProviderX,ModelY.  The code lowercases only the configured side of the
comparison, so the lookup fails and the original string is returned
unchanged. -/
theorem c5_case_insensitive_counterexample :
    getUseModel none c5req 0 c5cfg none = .ok (some "PROVIDERX,MODELY", c5req) ∧
    ("PROVIDERX,MODELY" : String) ≠ "ProviderX,ModelY" :=
  ⟨rfl, by decide⟩

/-- C5 amended: the comparison lowercases only the stored names, so the
lookup resolves exactly when the request spells provider and model in the
lowercased form of the stored names; then the canonically cased pair is
returned (otherwise the original string is returned unchanged). -/
theorem c5_explicit_model_amended (pname mname : String) (projR : Option RouterCfg)
    (req : ReqE) (cfg : Config) (tc : Nat) (lu : Option Usage)
    (hP : cfg.Providers = some [⟨pname, some [mname]⟩])
    (hM : req.body.model = some (lowerStr pname ++ "," ++ lowerStr mname))
    (hcp : ',' ∉ (lowerStr pname).data)
    (hcm : ',' ∉ (lowerStr mname).data) :
    getUseModel projR req tc cfg lu = .ok (some (pname ++ "," ++ mname), req) := by
  have hdata : (lowerStr pname ++ "," ++ lowerStr mname).data
      = (lowerStr pname).data ++ ',' :: (lowerStr mname).data := by
    simp [String.data_append]
  have hsplit : splitFirstL [','] (lowerStr pname ++ "," ++ lowerStr mname).data
      = some ((lowerStr pname).data, (lowerStr mname).data) := by
    rw [hdata]; exact splitFirstL_single_append ',' _ _ hcp
  have hnone : splitFirstL [','] (lowerStr mname).data = none :=
    splitFirstL_single_none ',' _ hcm
  have hcomma : ("," : String).data = [','] := rfl
  simp only [getUseModel, hM, strContains, hcomma, hsplit, Option.isSome_some, if_true,
    umComma, hP, strSplitFirst, firstSeg, hnone]
  simp [List.find?]

/-- C5 witness for the amended theorem at ProviderX, ModelY. -/
theorem c5_explicit_model_amended_witness :
    getUseModel none c5wreq 0 c5cfg none = .ok (some "ProviderX,ModelY", c5wreq) :=
  c5_explicit_model_amended "ProviderX" "ModelY" none c5wreq c5cfg 0 none rfl rfl
    (by decide) (by decide)

/-! ## Claim C6 -/

/-- C6, counterexample: with longContextThreshold configured as 0 the claim
threshold (nullish coalescing) is 0, so a request of 5 tokens should route
to the long context model lc; the code uses JS || and replaces 0 by 60000,
so the decision falls through to the default df. -/
theorem c6_threshold_zero_counterexample :
    specThresholdC6 c6R = 0 ∧ 5 > specThresholdC6 c6R ∧
    strTruthy c6R.longContext = true ∧
    getUseModel none reqM 5 c6cfg none = .ok (some "df", reqM) ∧
    ("df" : String) ≠ "lc" :=
  ⟨rfl, by decide, rfl, rfl, by decide⟩

/-- C6 amended: with threshold = longContextThreshold when set and nonzero,
else 60000 (JS || semantics), the decision returns
effectiveRouter.longContext exactly when longContext is truthy and either
tokenCount exceeds the threshold or the last session usage exceeds it with
tokenCount above 20000; otherwise the decision is that of the later
rules. -/
theorem c6_long_context_amended (projR : Option RouterCfg) (req : ReqE) (tc : Nat)
    (cfg : Config) (lu : Option Usage) (m : String) (R : RouterCfg)
    (hM : req.body.model = some m)
    (hNoComma : strContains m "," = false)
    (hEff : (projR <|> cfg.Router) = some R) :
    (longContextFires tc lu R = true →
      getUseModel projR req tc cfg lu = .ok (R.longContext, req)) ∧
    (longContextFires tc lu R = false →
      getUseModel projR req tc cfg lu = umSubagent req R cfg m) := by
  constructor <;> intro hF <;>
    simp [getUseModel, hM, hNoComma, hEff, umLongContext, hF]

/-- C6 witness: threshold 1000, a 1001 token request routes to lc and a 999
token request falls through (here to the default df). -/
theorem c6_long_context_amended_witness :
    getUseModel none reqM 1001 c6wcfg none = .ok (some "lc", reqM) ∧
    getUseModel none reqM 999 c6wcfg none = umSubagent reqM c6wR c6wcfg "m" ∧
    umSubagent reqM c6wR c6wcfg "m" = .ok (some "df", reqM) :=
  ⟨(c6_long_context_amended none reqM 1001 c6wcfg none "m" c6wR rfl rfl rfl).1 rfl,
   (c6_long_context_amended none reqM 999 c6wcfg none "m" c6wR rfl rfl rfl).2 rfl,
   rfl⟩

/-! ## Claim C7 -/

/-- C7, counterexample: the claim counts name concatenated with description
for every tool, but the code skips that term when the description is
absent or empty, so a tool with a name and no description contributes
nothing. -/
theorem c7_token_count_counterexample :
    calculateTokenCount clen cstr (some []) (.str "") (some [c7tool]) = 0 ∧
    specTokenCountC7 clen cstr [] (.str "") [c7tool] = 9 ∧
    calculateTokenCount clen cstr (some []) (.str "") (some [c7tool])
      ≠ specTokenCountC7 clen cstr [] (.str "") [c7tool] :=
  ⟨rfl, rfl, by decide⟩

/-- C7 amended: the token estimate equals the sum of the per message, per
system item and per tool contributions, where a tool contributes its name
concatenated with its description only when the description is truthy, and
its stringified schema only when the schema is present and truthy. -/
theorem c7_token_sum_amended (encode : String → Nat) (stringify : Json → String)
    (msgs : List MessageE) (system : SystemField) (tools : List ToolSpec) :
    calculateTokenCount encode stringify (some msgs) system (some tools) =
      (msgs.map (msgTokens encode stringify)).sum
      + specSysTokensC7 encode system
      + (tools.map (toolTokens encode stringify)).sum := by
  cases system <;>
    simp [calculateTokenCount, specSysTokensC7, foldl_add_sum]

/-! ## Claim C8 -/

/-- C8, counterexample: the claim says the session id is the suffix of
user_id after the marker; on a user id containing the marker twice the code
takes only the segment between the first and the second occurrence, not the
whole suffix. -/
theorem c8_session_suffix_counterexample :
    (sessionStep c8req).sessionId = some "abc" ∧
    afterFirst "u_session_abc_session_def" "_session_" = some "abc_session_def" ∧
    some ("abc" : String) ≠ some "abc_session_def" :=
  ⟨rfl, rfl, by decide⟩

/-- C8 amended: the derived session id is the segment of user_id after the
first marker occurrence up to the next occurrence; when the marker occurs
exactly once this is the whole suffix, and with no marker the session id
is left untouched. -/
theorem c8_session_marker_amended (req : ReqE) (uid : String)
    (hU : req.body.metadata_user_id = some uid) :
    (∀ sfx : String, afterFirst uid "_session_" = some sfx →
      strContains sfx "_session_" = false →
      (sessionStep req).sessionId = some sfx) ∧
    (afterFirst uid "_session_" = none →
      (sessionStep req).sessionId = req.sessionId) := by
  constructor
  · intro sfx hA hOnce
    rcases hsp : strSplitFirst uid "_session_" with _ | ⟨pre, post⟩
    · rw [afterFirst, hsp] at hA; cases hA
    · rw [afterFirst, hsp] at hA
      simp only [Option.map_some', Option.some_inj] at hA
      subst hA
      simp only [sessionStep, hU, hsp]
      have : strSplitFirst post "_session_" = none := by
        rcases h2 : strSplitFirst post "_session_" with _ | q
        · rfl
        · rw [strContains] at hOnce
          rw [strSplitFirst] at h2
          rcases h3 : splitFirstL "_session_".data post.data with _ | q2
          · rw [h3] at h2; cases h2
          · rw [h3] at hOnce; cases hOnce
      simp [firstSeg, this]
  · intro hA
    rcases hsp : strSplitFirst uid "_session_" with _ | ⟨pre, post⟩
    · simp [sessionStep, hU, hsp]
    · rw [afterFirst, hsp] at hA; cases hA

/-- C8 witness: a single marker occurrence yields the full suffix. -/
theorem c8_session_marker_amended_witness :
    (sessionStep c8wreq).sessionId = some "s1" :=
  (c8_session_marker_amended c8wreq "u_session_s1" rfl).1 "s1" rfl rfl

/-! ## Claim C4 -/

/-- C4: when the request model contains both claude and haiku, reaches the
background rule (no comma, long context and subagent rules pass) and the
global Router.background is set, the decision is the global background
model for every project specific Router in effect. -/
theorem c4_background_global (projR : Option RouterCfg) (req : ReqE) (tc : Nat)
    (cfg : Config) (lu : Option Usage) (m : String) (g R : RouterCfg)
    (hM : req.body.model = some m)
    (hNoComma : strContains m "," = false)
    (hEff : (projR <|> cfg.Router) = some R)
    (hLC : longContextFires tc lu R = false)
    (hSub : subagentCheck req.body.system = .passes)
    (hClaude : strContains m "claude" = true)
    (hHaiku : strContains m "haiku" = true)
    (hG : cfg.Router = some g)
    (hBg : strTruthy g.background = true) :
    getUseModel projR req tc cfg lu = .ok (g.background, req) := by
  rw [hG] at hEff
  simp [getUseModel, hM, hNoComma, hG, hEff, umLongContext, hLC, umSubagent, hSub,
    umBackground, hClaude, hHaiku, hBg]

/-- C4 witness: a project Router with its own default and background is in
effect, yet the claude haiku request routes to the global background. -/
theorem c4_background_global_witness :
    getUseModel (some c4proj) c4req 0 c4cfg none = .ok (some "gq,llama", c4req) :=
  c4_background_global (some c4proj) c4req 0 c4cfg none "claude-3-haiku-20240307" c4g c4proj
    rfl rfl rfl rfl rfl rfl rfl rfl rfl

/-! ## Claim C3 -/

/-- The request carried by a routerDecide error has the body it started
with: every throwing point of the decision lies before any body
mutation. -/
theorem customStep_body (deps : RouterDeps) (cfg : Config) (req : ReqE) (tc : Nat) :
    (customStep deps cfg req tc).2.body = req.body := by
  unfold customStep
  split
  · rcases deps.custom with _ | f
    · rfl
    · dsimp only
      rcases f { req with tokenCount := some tc } cfg with _ | m <;> rfl
  · rfl

theorem decideCore_error_step (deps : RouterDeps) (cfg : Config) (lu : Option Usage)
    (tc : Nat) (step : Option String × ReqE) (e : JsErr) (reqF : ReqE)
    (h : decideCore deps cfg lu tc step = .error (e, reqF)) :
    reqF = step.2 := by
  unfold decideCore at h
  split at h
  · cases h
  · rcases hg : getUseModel (deps.projRouter step.2.sessionId) step.2 tc cfg lu with e2 | p
    · rw [hg] at h
      simp only [Except.mapError] at h
      injection h with h1
      injection h1 with h2 h3
      exact h3.symm
    · rw [hg] at h
      simp only [Except.mapError] at h
      cases h

theorem routerDecide_error_body (encode : String → Nat) (stringify : Json → String)
    (deps : RouterDeps) (req : ReqE) (cfg : Config) (lu : Option Usage)
    (e : JsErr) (reqF : ReqE)
    (h : routerDecide encode stringify deps req cfg lu = .error (e, reqF)) :
    reqF.body = req.body := by
  unfold routerDecide at h
  have hstep := decideCore_error_step deps cfg lu (decideTokenCount encode stringify req)
    (customStep deps cfg req (decideTokenCount encode stringify req)) e reqF h
  rw [hstep]
  exact customStep_body deps cfg req (decideTokenCount encode stringify req)

/-- C3, counterexample: with a fully valid configuration (a global Router
with a default) whose REWRITE_SYSTEM_PROMPT file read fails, the routing
entry point rejects with the file error instead of falling back, because
the system prompt rewrite runs before the try block. -/
theorem c3_never_throws_counterexample :
    router clen cstr c3deps c3req c3cfg = .error .fileError ∧
    c3cfg.Router = some c3Router ∧ c3Router.dft = some "ds,chat" :=
  ⟨rfl, rfl, rfl⟩

/-- C3 amended: provided the system prompt rewrite step does not throw and
a global Router section exists, the entry point never errors, and whenever
the guarded decision fails internally the resulting request body is the
input body with only the model field replaced by Router.default. -/
theorem c3_fallback_amended (encode : String → Nat) (stringify : Json → String)
    (deps : RouterDeps) (req : ReqE) (cfg : Config) (r : RouterCfg) (req2 : ReqE)
    (hR : cfg.Router = some r)
    (hRw : rewriteStep deps (sessionStep req) cfg = .ok req2) :
    ∃ req3, router encode stringify deps req cfg = .ok req3 ∧
      ∀ e reqF, routerDecide encode stringify deps req2 cfg
          (deps.usageCache (sessionStep req).sessionId) = .error (e, reqF) →
        req3.body = { req2.body with model := r.dft } := by
  unfold router
  rw [hRw]
  dsimp only
  rcases hD : routerDecide encode stringify deps req2 cfg
      (deps.usageCache (sessionStep req).sessionId) with ⟨e0, reqF0⟩ | ⟨m, req3⟩
  · rw [hR]
    dsimp only
    refine ⟨setModel reqF0 r.dft, rfl, ?_⟩
    intro e reqF _
    have hb : reqF0.body = req2.body :=
      routerDecide_error_body encode stringify deps req2 cfg
        (deps.usageCache (sessionStep req).sessionId) e0 reqF0 hD
    simp [setModel, hb]
  · dsimp only
    refine ⟨setModel req3 m, rfl, ?_⟩
    intro e reqF h
    cases h

/-- C3 witness: a comma model with no Providers section makes the decision
throw, and the entry point falls back to the default ds,chat. -/
theorem c3_fallback_amended_witness :
    ∃ req3, router clen cstr c3wdeps c3wreq c3wcfg = .ok req3 ∧
      ∀ e reqF, routerDecide clen cstr c3wdeps (sessionStep c3wreq) c3wcfg
          (c3wdeps.usageCache (sessionStep c3wreq).sessionId) = .error (e, reqF) →
        req3.body = { (sessionStep c3wreq).body with model := c3Router.dft } :=
  c3_fallback_amended clen cstr c3wdeps c3wreq c3wcfg c3Router (sessionStep c3wreq) rfl rfl

/-! ## Claim C2 -/

/-- C2, counterexample: after a tool call start and a content_block_stop
whose accumulated arguments fail the tolerant parse, the claim says the
tool-open state resets to IDLE (currentToolIndex back to -1); the code
skips the reset in the catch, leaving currentToolIndex at the open tool
index. -/
theorem c2_state_reset_counterexample :
    (runPipe c2env (initPipeState []) [mkStartEvt 0 "agentTool" (some "tid"), mkStopEvt 0]).1.currentToolIndex
      = some 0 ∧ (some (0 : Int)) ≠ some (-1) :=
  ⟨rfl, by decide⟩

/-- C2 amended: when content_block_stop arrives at the open tool index and
the accumulated arguments fail the tolerant parse, or the tool handler
throws, the exception is caught, no tool result is recorded, the event is
suppressed and the pipeline continues, but the tool-open state is NOT
reset: currentToolIndex, the accumulated arguments, the tool name and the
current agent all keep their values. -/
theorem c2_handler_failure_amended (env : PipeEnv) (st : PipeState) (d : SSEEvt) (idx : Int)
    (hIdx : st.currentToolIndex = some idx) (hgt : idx > -1)
    (hEvt : d.event = "content_block_stop")
    (hDIdx : d.data.index = some idx)
    (hDType : d.data.type = some "content_block_stop")
    (hNoDelta : d.data.delta = none)
    (hFail : env.json5Parse st.currentToolArgs = none ∨
      ∃ args ag, env.json5Parse st.currentToolArgs = some args ∧
        st.currentAgent = some ag ∧ env.agentHasTool ag st.currentToolName = true ∧
        env.handler ag st.currentToolName args = .error ()) :
    (pipeStep env st d).2 = [] ∧
    (pipeStep env st d).1.currentToolIndex = st.currentToolIndex ∧
    (pipeStep env st d).1.currentToolArgs = st.currentToolArgs ∧
    (pipeStep env st d).1.currentToolName = st.currentToolName ∧
    (pipeStep env st d).1.currentAgent = st.currentAgent ∧
    (pipeStep env st d).1.toolMessages = st.toolMessages := by
  have hj : jsGtInt (some idx) (-1) = true := by simp [jsGtInt, hgt]
  have hstop : pipeStep env st d = pipeStop env st := by
    simp [pipeStep, hEvt, pipeAfterStart, hIdx, hj, hDIdx, hDType, hNoDelta]
  rw [hstop]
  rcases hFail with hP | ⟨args, ag, hP, hAg, hT, hH⟩
  · simp [pipeStop, hP]
  · simp [pipeStop, hP, hAg, hT, hH, Except.map]

/-- C2 witness: a concrete tool-open state and a stop event with
unparseable arguments; the event is suppressed and the state persists. -/
theorem c2_handler_failure_amended_witness :
    (pipeStep c2env c2wst (mkStopEvt 0)).2 = [] ∧
    (pipeStep c2env c2wst (mkStopEvt 0)).1.currentToolIndex = c2wst.currentToolIndex ∧
    (pipeStep c2env c2wst (mkStopEvt 0)).1.currentToolArgs = c2wst.currentToolArgs ∧
    (pipeStep c2env c2wst (mkStopEvt 0)).1.currentToolName = c2wst.currentToolName ∧
    (pipeStep c2env c2wst (mkStopEvt 0)).1.currentAgent = c2wst.currentAgent ∧
    (pipeStep c2env c2wst (mkStopEvt 0)).1.toolMessages = c2wst.toolMessages :=
  c2_handler_failure_amended c2env c2wst (mkStopEvt 0) 0 rfl (by decide) rfl rfl rfl rfl
    (Or.inl rfl)

/-! ## Claim C1 -/

/-- Collecting phase: each input_json_delta at the open tool index appends
its partial text and emits nothing. -/
theorem runPipe_deltas (env : PipeEnv) (idx : Int) (ps : List String)
    (st : PipeState) (rest : List SSEEvt)
    (hIdx : st.currentToolIndex = some idx) (hgt : idx > -1) :
    runPipe env st (ps.map (mkDeltaEvt idx) ++ rest) =
      runPipe env { st with currentToolArgs := ps.foldl (fun a p => a ++ p) st.currentToolArgs } rest := by
  induction ps generalizing st with
  | nil => rfl
  | cons p ps ih =>
    have hj : jsGtInt (some idx) (-1) = true := by simp [jsGtInt, hgt]
    have hstep : pipeStep env st (mkDeltaEvt idx p)
        = ({ st with currentToolArgs := st.currentToolArgs ++ p }, []) := by
      simp [pipeStep, mkDeltaEvt, cbNameOf, strTruthy, pipeAfterStart, hIdx, hj]
    simp only [List.map_cons, List.cons_append, runPipe, hstep, List.nil_append]
    exact ih _ hIdx

/-- C1: for the scripted tool-call scenario (a tool-call start owned by an
active agent, any number of argument deltas, the stop, then message_delta)
with a succeeding handler and a succeeding nested call whose stream is
message_start, three content_block events, message_delta, message_stop,
the pipeline output is exactly the nested stream minus its framing: no
scaffolding event, the nested content_block events in order, and no
message_start or message_stop. -/
theorem c1_splice_transparency (env : PipeEnv) (origMsgs : List PMsg)
    (ag tname : String) (idx : Int) (cbid : Option String) (ps : List String)
    (args res : Json) (u : Option Usage) (n1 n2 n3 n4 n5 n6 : SSEEvt)
    (hname : strTruthy (some tname) = true)
    (hgt : idx > -1)
    (hfind : env.agents.find? (fun nm => env.agentHasTool nm tname) = some ag)
    (hparse : env.json5Parse (String.join ps) = some args)
    (hhandler : env.handler ag tname args = .ok res)
    (hnested : env.nested (origMsgs ++
        [PMsg.assistant [⟨cbid, tname, args⟩], PMsg.userTool [⟨cbid, some res⟩]])
      = some [n1, n2, n3, n4, n5, n6])
    (h1 : n1.event = "message_start") (h2 : n2.event = "content_block_start")
    (h3 : n3.event = "content_block_delta") (h4 : n4.event = "content_block_stop")
    (h5 : n5.event = "message_delta") (h6 : n6.event = "message_stop") :
    (runPipe env (initPipeState origMsgs)
        (mkStartEvt idx tname cbid :: (ps.map (mkDeltaEvt idx) ++ [mkStopEvt idx, mkMsgDeltaEvt u]))).2
      = [n2, n3, n4, n5] ∧
    ([n2, n3, n4, n5].countP (fun e => e.event == "message_start") = 0 ∧
     [n2, n3, n4, n5].countP (fun e => e.event == "message_stop") = 0) ∧
    [n2, n3, n4, n5].filter (fun e => strStartsWith e.event "content_block") = [n2, n3, n4] := by
  have hHasTool : env.agentHasTool ag tname = true := by
    have hp := List.find?_some hfind
    simpa using hp
  have hstart : pipeStep env (initPipeState origMsgs) (mkStartEvt idx tname cbid)
      = (⟨some ag, some idx, tname, "", cbid, [], [], origMsgs⟩, []) := by
    simp [pipeStep, mkStartEvt, cbNameOf, hname, hfind, initPipeState]
  have hparse2 : env.json5Parse (ps.foldl (fun a p => a ++ p) "") = some args := hparse
  have hstop : pipeStep env ⟨some ag, some idx, tname, ps.foldl (fun a p => a ++ p) "", cbid, [], [], origMsgs⟩ (mkStopEvt idx)
      = (⟨none, some (-1), "", "", some "", [⟨cbid, some res⟩], [⟨cbid, tname, args⟩], origMsgs⟩, []) := by
    have hj : jsGtInt (some idx) (-1) = true := by simp [jsGtInt, hgt]
    simp [pipeStep, mkStopEvt, cbNameOf, strTruthy, pipeAfterStart, hj, pipeStop,
      hparse2, hHasTool, hhandler, Except.map]
  have hmd : pipeStep env ⟨none, some (-1), "", "", some "", [⟨cbid, some res⟩], [⟨cbid, tname, args⟩], origMsgs⟩ (mkMsgDeltaEvt u)
      = (⟨none, some (-1), "", "", some "",
           [⟨cbid, some res⟩], [⟨cbid, tname, args⟩],
           origMsgs ++ [PMsg.assistant [⟨cbid, tname, args⟩], PMsg.userTool [⟨cbid, some res⟩]]⟩,
         [n2, n3, n4, n5]) := by
    simp [pipeStep, mkMsgDeltaEvt, cbNameOf, strTruthy, pipeAfterStart, pipeSplice, hnested,
      h1, h2, h3, h4, h5, h6]
  refine ⟨?_, ?_, ?_⟩
  · simp only [runPipe, hstart, List.nil_append]
    rw [runPipe_deltas env idx ps _ _ rfl hgt]
    simp only [runPipe, hstop, hmd, List.nil_append, List.append_nil]
  · constructor <;> simp [List.countP, List.countP.go, h2, h3, h4, h5]
  · simp [List.filter, h2, h3, h4, h5, strStartsWith, dropPrefixL]

/-- C1 witness: the concrete scenario with two argument deltas. -/
theorem c1_splice_transparency_witness :
    (runPipe c1env (initPipeState [])
        (mkStartEvt 0 "agentTool" (some "tid")
          :: (["ar", "g"].map (mkDeltaEvt 0) ++ [mkStopEvt 0, mkMsgDeltaEvt none]))).2
      = [nCBS, nCBD, nCBE, nMD] ∧
    ([nCBS, nCBD, nCBE, nMD].countP (fun e => e.event == "message_start") = 0 ∧
     [nCBS, nCBD, nCBE, nMD].countP (fun e => e.event == "message_stop") = 0) ∧
    [nCBS, nCBD, nCBE, nMD].filter (fun e => strStartsWith e.event "content_block")
      = [nCBS, nCBD, nCBE] :=
  c1_splice_transparency c1env [] "agentA" "agentTool" 0 (some "tid") ["ar", "g"]
    (.str "argv") (.str "result") none nStart nCBS nCBD nCBE nMD nStop
    rfl (by decide) rfl rfl rfl rfl rfl rfl rfl rfl rfl rfl

/-! ## Claim C10 -/

/-- C10: with no derived session id (metadata.user_id lacking the marker)
the onSend stage applies no interception and writes nothing to the session
usage cache, and a stream payload is forwarded unchanged, even when active
agents matched the request. -/
theorem c10_no_session_passthrough (env : PipeEnv) (req : ReqE) (url : String)
    (origMsgs : List PMsg) (evs : List SSEEvt)
    (hSid : req.sessionId = none)
    (hNoMarker : req.body.metadata_user_id = none ∨
      ∃ uid, req.body.metadata_user_id = some uid ∧ strContains uid "_session_" = false) :
    onSendHook env (sessionStep req) url origMsgs (.stream evs) =
      { sent := .doneOk (.stream evs), intercepted := false, cacheWrites := [] } := by
  have hkeep : (sessionStep req).sessionId = none := by
    rcases hNoMarker with h | ⟨uid, hu, hc⟩
    · simp [sessionStep, h, hSid]
    · have hsp : strSplitFirst uid "_session_" = none := by
        rw [strContains] at hc
        rw [strSplitFirst]
        rcases hs : splitFirstL "_session_".data uid.data with _ | q
        · rfl
        · rw [hs] at hc; cases hc
      simp [sessionStep, hu, hsp, hSid]
  simp [onSendHook, hkeep, strTruthy]

/-- C10 witness: agents matched, streaming payload, no session marker. -/
theorem c10_no_session_passthrough_witness :
    onSendHook c1env (sessionStep c10req) "/v1/messages" [] (.stream [nMD]) =
      { sent := .doneOk (.stream [nMD]), intercepted := false, cacheWrites := [] } :=
  c10_no_session_passthrough c1env c10req "/v1/messages" [] [nMD] rfl
    (Or.inr ⟨"alice", rfl, rfl⟩)

/-! ## Claim C9 -/

theorem dropPrefixL_append (a b : List Char) : dropPrefixL a (a ++ b) = some b := by
  induction a with
  | nil => rfl
  | cons x xs ih => simp [dropPrefixL, ih]

theorem strMk_data (s : String) : String.mk s.data = s := rfl

/-- C9: serializing any sequence of SSE records and parsing the result
yields the same sequence by value; consequently parse then serialize then
parse reconstructs the records of any input, equal by value. -/
theorem c9_sse_roundtrip :
    (∀ evs : List SSERecord, parseSSE (serializeSSE evs) = evs) ∧
    (∀ lines : List String, parseSSE (serializeSSE (parseSSE lines)) = parseSSE lines) := by
  have h : ∀ evs : List SSERecord, parseSSE (serializeSSE evs) = evs := by
    intro evs
    induction evs with
    | nil => rfl
    | cons r evs ih =>
      have hev : ("event: " ++ r.event).data = "event: ".data ++ r.event.data :=
        String.data_append _ _
      have hda : ("data: " ++ r.data).data = "data: ".data ++ r.data.data :=
        String.data_append _ _
      simp only [serializeSSE, List.flatMap_cons, List.cons_append, List.nil_append] at *
      simp only [parseSSE, parseSSEAux, hev, hda, dropPrefixL_append]
      simp only [parseSSEAux, dropPrefixL, joinNL, strMk_data]
      simp [parseSSEAux, joinNL, strMk_data]
      exact ih
  exact ⟨h, fun lines => h (parseSSE lines)⟩

end CCR
